import Mathlib

/-!
A shallow embedding of `src/clients/alpha_vantage/client.py`
(`StockMarketClient` and its module-level exception classes), together
with theorems checking the natural-language specification against it.

Modelling conventions:
* JSON values are the inductive `JSON`.
* Python exceptions raised by the client are the inductive `PyExc`; the
  class hierarchy declared at the top of the module is modelled
  separately by `ExcClass` / `ExcClass.base` / `ExcClass.subclassOf`.
* The HTTP transport (`requests.get` + `raise_for_status` + `.json()`)
  is abstracted as a function from the sent query parameters and the
  attempt index to an `AttemptResult`, one constructor per distinct
  outcome the `try` block can observe.
* `_make_request`'s `for attempt in range(self.max_retries)` loop is
  `makeRequestLoop`; the returned `ReqResult` also records how many
  HTTP attempts were made and whether the post-loop fallback
  (`raise APIError("Request failed after all retries")`) was reached.
* Operations return their result paired with the number of HTTP
  attempts performed, so "no network call" is `attempts = 0`.
-/

/-- A JSON value, as produced by `response.json()`. -/
inductive JSON : Type
  | obj  (kvs : List (String × JSON))
  | arr  (xs : List JSON)
  | str  (s : String)
  | num  (n : Int)
  | bool (b : Bool)
  | null

/-- Python values that can be passed where the client expects a string
argument (`symbol` / `keywords`): enough constructors to express
"empty string" and "not a string". -/
inductive PyVal : Type
  | str   (s : String)
  | int   (n : Int)
  | bool  (b : Bool)
  | none
  deriving Repr, DecidableEq

/-- Exceptions the client code can raise (plus the untyped `TypeError`
and `AttributeError` that dynamic operations on a non-dict body would
raise). Each constructor carries the message the source builds. -/
inductive PyExc : Type
  | invalidArgsError (msg : String)
  | apiError         (msg : String)
  | rateLimitError   (msg : String)
  | connectionError  (msg : String)
  | dataNotFoundError (msg : String)
  | typeError        (msg : String)
  | attributeError   (msg : String)
  | keyError         (msg : String)
  deriving Repr, DecidableEq

/-- The exception classes declared in the module, lines 16-43 of
`client.py`, plus Python's built-in `Exception`. -/
inductive ExcClass : Type
  | exceptionBase
  | alphaVantageError
  | invalidArgsError
  | apiError
  | rateLimitError
  | connectionError
  | dataNotFoundError
  deriving Repr, DecidableEq

namespace ExcClass

/-- The declared base class of each class, exactly as in the source:
`AlphaVantageError(Exception)`, `InvalidArgsError(AlphaVantageError)`,
`APIError(AlphaVantageError)`, `RateLimitError(APIError)`,
`ConnectionError(APIError)`, `DataNotFoundError(AlphaVantageError)`. -/
def base : ExcClass → Option ExcClass
  | exceptionBase     => Option.none
  | alphaVantageError => some exceptionBase
  | invalidArgsError  => some alphaVantageError
  | apiError          => some alphaVantageError
  | rateLimitError    => some apiError
  | connectionError   => some apiError
  | dataNotFoundError => some alphaVantageError

/-- Walk up at most `fuel` base-class links looking for `d`. -/
def subclassOfAux (fuel : Nat) (c d : ExcClass) : Bool :=
  match fuel with
  | 0 => false
  | fuel + 1 =>
    if c = d then true
    else match base c with
      | Option.none => false
      | some p => subclassOfAux fuel p d

/-- Models `issubclass(c, d)`: reflexive-transitive closure of `base`.  The
hierarchy has depth at most 3, so fuel 4 suffices. -/
def subclassOf (c d : ExcClass) : Bool :=
  subclassOfAux 4 c d

end ExcClass

/-- The class of each raised exception value (`type(e)`). -/
def PyExc.cls : PyExc → ExcClass
  | .invalidArgsError _  => ExcClass.invalidArgsError
  | .apiError _          => ExcClass.apiError
  | .rateLimitError _    => ExcClass.rateLimitError
  | .connectionError _   => ExcClass.connectionError
  | .dataNotFoundError _ => ExcClass.dataNotFoundError
  | .typeError _         => ExcClass.exceptionBase
  | .attributeError _    => ExcClass.exceptionBase
  | .keyError _          => ExcClass.exceptionBase

/-- Models `isinstance(e, d)` for a raised exception. -/
def PyExc.isInstanceOf (e : PyExc) (d : ExcClass) : Bool :=
  ExcClass.subclassOf e.cls d

/-! ### Truthiness and small pieces of Python semantics -/

/-- Python truthiness of the argument values we model. -/
def PyVal.truthy : PyVal → Bool
  | .str s  => s ≠ ""
  | .int n  => n ≠ 0
  | .bool b => b
  | .none   => false

/-- Models `isinstance(v, str)`. -/
def PyVal.isStr : PyVal → Bool
  | .str _ => true
  | _      => false

/-- Python truthiness of a JSON value (`if not data`). -/
def JSON.truthy : JSON → Bool
  | .obj kvs => !kvs.isEmpty
  | .arr xs  => !xs.isEmpty
  | .str s   => s ≠ ""
  | .num n   => n ≠ 0
  | .bool b  => b
  | .null    => false

/-- The whitespace characters stripped by `str.strip()` (ASCII part). -/
def pyIsSpace (c : Char) : Bool :=
  c = ' ' ∨ c = '\t' ∨ c = '\n' ∨ c = '\x0d' ∨ c = '\x0b' ∨ c = '\x0c'

/-- Models `str.strip()`: drop leading and trailing whitespace. -/
def pyStrip (s : String) : String :=
  String.mk (((s.data.dropWhile pyIsSpace).reverse.dropWhile pyIsSpace).reverse)

/-- Models `str.upper()`, restricted to ASCII letters (the client only ever
receives ticker symbols; non-ASCII case mapping is out of scope). -/
def upChar (c : Char) : Char :=
  if 'a' ≤ c ∧ c ≤ 'z' then
    Char.ofNat (c.toNat - 32)
  else c

/-- Models `str.upper()` on a whole string. -/
def pyUpper (s : String) : String :=
  String.mk (s.data.map upChar)

/-- A crude `str()` / f-string rendering of a JSON value, used only to
build exception message text. -/
def JSON.pyStr : JSON → String
  | .obj _  => "{...}"
  | .arr _  => "[...]"
  | .str s  => s
  | .num n  => toString n
  | .bool b => if b then "True" else "False"
  | .null   => "None"

/-- Models `needle in hay` for Python strings: substring containment. -/
def pyStrContains (hay needle : String) : Bool :=
  decide (needle.data <:+: hay.data)

/-- Python `elem == key` between a JSON list element and a string. -/
def JSON.eqStr (j : JSON) (key : String) : Bool :=
  match j with
  | .str s => s = key
  | _ => false

/-- Models `key in data` for a JSON value, with Python semantics: key lookup
for dicts, element equality for lists, substring test for strings, and
`TypeError` for non-container values. -/
def pyIn (key : String) : JSON → Except PyExc Bool
  | .obj kvs => .ok (kvs.any (fun kv => kv.1 = key))
  | .arr xs  => .ok (xs.any (fun x => x.eqStr key))
  | .str s   => .ok (pyStrContains s key)
  | .num _   => .error (.typeError "argument of type is not iterable")
  | .bool _  => .error (.typeError "argument of type is not iterable")
  | .null    => .error (.typeError "argument of type is not iterable")

/-- Models `data[key]` with Python semantics: dict lookup (or `KeyError`),
`TypeError` on anything that is not a dict. -/
def pySubscript (data : JSON) (key : String) : Except PyExc JSON :=
  match data with
  | .obj kvs =>
    match kvs.lookup key with
    | some v => .ok v
    | Option.none => .error (.keyError key)
  | _ => .error (.typeError "indices must be integers")

/-- Models `data.get(key, default)`: `AttributeError` when `data` is not a
dict. -/
def pyDictGet (data : JSON) (key : String) (default : JSON) :
    Except PyExc JSON :=
  match data with
  | .obj kvs =>
    match kvs.lookup key with
    | some v => .ok v
    | Option.none => .ok default
  | _ => .error (.attributeError "get")

/-- Models `len(data)`: `TypeError` on values without a length. -/
def pyLen (data : JSON) : Except PyExc Nat :=
  match data with
  | .obj kvs => .ok kvs.length
  | .arr xs  => .ok xs.length
  | .str s   => .ok s.length
  | _ => .error (.typeError "object has no len")

/-! ### The client: configuration and construction -/

/-- Models `x or default` for an optional integer argument (`None` and `0` are
falsy). -/
def pyOrInt (v : Option Int) (d : Int) : Int :=
  match v with
  | Option.none => d
  | some x => if x = 0 then d else x

/-- Models `x or default` for an optional string argument (`None` and `""` are
falsy). -/
def pyOrStr (v : Option String) (d : String) : String :=
  match v with
  | Option.none => d
  | some x => if x = "" then d else x

/-- The state of a constructed `StockMarketClient`. -/
structure Client : Type where
  api_key     : String
  base_url    : String
  timeout     : Int
  max_retries : Int
  deriving Repr, DecidableEq

/-- Models `StockMarketClient.__init__`, lines 58-77: reject a missing or
empty api key, then substitute defaults for falsy optional arguments. -/
def StockMarketClient.init (api_key : Option String)
    (base_url : Option String) (timeout : Option Int)
    (max_retries : Option Int) : Except PyExc Client :=
  let keyFalsy : Bool :=
    match api_key with
    | Option.none => true
    | some k => k = ""
  if keyFalsy then .error (.invalidArgsError "missing api key")
  else
    .ok { api_key := api_key.getD ""
          base_url := pyOrStr base_url "https://www.alphavantage.co/query"
          timeout := pyOrInt timeout 30
          max_retries := pyOrInt max_retries 3 }

/-! ### The request executor `_make_request` -/

/-- What one HTTP attempt (the body of the `try` up to and including
`response.json()`) can report back, one constructor per `except`
branch plus a parsed body. `httpError` is `raise_for_status` raising
`requests.exceptions.HTTPError`; `badJson` is `response.json()` raising
a JSON decode error; both are subclasses of `RequestException`. -/
inductive AttemptResult : Type
  | timeout
  | connError (msg : String)
  | httpError (msg : String)
  | badJson   (msg : String)
  | body      (data : JSON)

/-- Request parameters: an ordered string-to-string mapping. -/
abbrev Params := List (String × String)

/-- The transport: given the full query parameters and the attempt
index, what that attempt reports. -/
abbrev Transport := Params → Nat → AttemptResult

/-- Lines 107-119 of `_make_request`: inspect a parsed body for the
provider's `Error Message` and `Note` fields, in that order.  An
`Except.error` from `pyIn` or `pySubscript` models the `TypeError`
Python would raise at that point. -/
def classifyBody (data : JSON) : Except PyExc JSON :=
  match pyIn "Error Message" data with
  | .error e => .error e
  | .ok true =>
    (match pySubscript data "Error Message" with
     | .error e => .error e
     | .ok v => .error (.apiError ("Alpha Vantage API Error: " ++ v.pyStr)))
  | .ok false =>
    match pyIn "Note" data with
    | .error e => .error e
    | .ok true =>
      (match pySubscript data "Note" with
       | .error e => .error e
       | .ok v =>
         .error (.rateLimitError ("Alpha Vantage Rate Limit: " ++ v.pyStr)))
    | .ok false => .ok data

/-- Result of `_make_request`, instrumented with the number of HTTP
attempts performed and whether the post-loop fallback
(`raise APIError("Request failed after all retries")`) was reached. -/
structure ReqResult : Type where
  outcome     : Except PyExc JSON
  attempts    : Nat
  fellThrough : Bool

/-- The `for attempt in range(max_retries)` loop of `_make_request`,
lines 96-135.  `remaining` counts the iterations `range` has left and
`i` is the current attempt index, so the loop is entered with
`(max_retries, 0)` and `remaining = max_retries - i` throughout; the
source's last-attempt test `attempt == self.max_retries - 1` is
`remaining = 1`.  Timeouts retry unless this was the last allowed
attempt; every other outcome of an attempt terminates the loop;
exhausting `range` reaches the fallback raise on line 135. -/
def makeRequestLoop (t : Nat → AttemptResult) :
    (remaining : Nat) → (i : Nat) → ReqResult
  | 0, i => ⟨.error (.apiError "Request failed after all retries"), i, true⟩
  | remaining + 1, i =>
    match t i with
    | .timeout =>
      if remaining = 0 then
        ⟨.error (.connectionError "Request timeout after all retries"),
          i + 1, false⟩
      else
        makeRequestLoop t remaining (i + 1)
    | .connError m =>
      ⟨.error (.connectionError
          ("Failed to connect to Alpha Vantage API: " ++ m)), i + 1, false⟩
    | .httpError m =>
      ⟨.error (.apiError ("Request failed: " ++ m)), i + 1, false⟩
    | .badJson m =>
      ⟨.error (.apiError ("Request failed: " ++ m)), i + 1, false⟩
    | .body data =>
      ⟨classifyBody data, i + 1, false⟩

/-- Models `_make_request`: attach the api key to the parameters, then run the
retry loop.  A non-positive `max_retries` makes `range` empty. -/
def Client.makeRequest (c : Client) (t : Transport) (params : Params) :
    ReqResult :=
  let ps := params ++ [("apikey", c.api_key)]
  makeRequestLoop (t ps) c.max_retries.toNat 0

/-! ### Data operations

Each operation returns its result together with the number of HTTP
attempts that were performed (`0` when validation fails before any
network call). -/

/-- Result of a data operation: outcome plus HTTP attempt count. -/
abbrev OpResult := Except PyExc JSON × Nat

/-- Models `symbol.upper().strip()`, the normalization applied by every
symbol-taking operation. -/
def normalizeSymbol (s : String) : String :=
  pyStrip (pyUpper s)

/-- The parameters `get_quote` sends (before the api key is attached). -/
def get_quote_request (symbol : String) : Params :=
  [("function", "GLOBAL_QUOTE"), ("symbol", normalizeSymbol symbol)]

/-- Models `get_quote`, lines 137-175.  Validation, then the request, then
extraction of the `Global Quote` sub-object (empty dict when absent or
falsy). -/
def Client.get_quote (c : Client) (t : Transport) (symbol : PyVal) :
    OpResult :=
  match symbol with
  | .str s =>
    if s = "" then
      (.error (.invalidArgsError "Symbol must be a non-empty string"), 0)
    else
      let r := c.makeRequest t (get_quote_request s)
      match r.outcome with
      | .ok data =>
        (match pyDictGet data "Global Quote" (.obj []) with
         | .ok q =>
           if q.truthy then (.ok q, r.attempts)
           else (.ok (.obj []), r.attempts)
         | .error e => (.error e, r.attempts))
      | .error e => (.error e, r.attempts)
  | _ => (.error (.invalidArgsError "Symbol must be a non-empty string"), 0)

/-- The parameters `get_daily_data` sends. -/
def get_daily_data_request (symbol outputsize : String) : Params :=
  [("function", "TIME_SERIES_DAILY"), ("symbol", normalizeSymbol symbol),
   ("outputsize", outputsize)]

/-- Models `get_daily_data`, lines 177-219. -/
def Client.get_daily_data (c : Client) (t : Transport) (symbol : PyVal)
    (outputsize : String) : OpResult :=
  match symbol with
  | .str s =>
    if s = "" then
      (.error (.invalidArgsError "Symbol must be a non-empty string"), 0)
    else if outputsize ∉ ["compact", "full"] then
      (.error (.invalidArgsError "Output size must be 'compact' or 'full'"), 0)
    else
      let r := c.makeRequest t (get_daily_data_request s outputsize)
      match r.outcome with
      | .ok data =>
        (match pyDictGet data "Time Series (Daily)" .null with
         | .ok v =>
           if v.truthy then (.ok data, r.attempts)
           else (.ok (.obj []), r.attempts)
         | .error e => (.error e, r.attempts))
      | .error e => (.error e, r.attempts)
  | _ => (.error (.invalidArgsError "Symbol must be a non-empty string"), 0)

/-- The `valid_intervals` list of `get_intraday_data`. -/
def valid_intervals : List String :=
  ["1min", "5min", "15min", "30min", "60min"]

/-- The parameters `get_intraday_data` sends. -/
def get_intraday_data_request (symbol interval outputsize : String) :
    Params :=
  [("function", "TIME_SERIES_INTRADAY"), ("symbol", normalizeSymbol symbol),
   ("interval", interval), ("outputsize", outputsize)]

/-- Models `get_intraday_data`, lines 221-276: symbol, interval and outputsize
validated in that order, then the request, then a scan of the response
keys for one containing `"Time Series"`. -/
def Client.get_intraday_data (c : Client) (t : Transport) (symbol : PyVal)
    (interval outputsize : String) : OpResult :=
  match symbol with
  | .str s =>
    if s = "" then
      (.error (.invalidArgsError "Symbol must be a non-empty string"), 0)
    else if interval ∉ valid_intervals then
      (.error (.invalidArgsError
        "Interval must be one of: ['1min', '5min', '15min', '30min', '60min']"), 0)
    else if outputsize ∉ ["compact", "full"] then
      (.error (.invalidArgsError "Output size must be 'compact' or 'full'"), 0)
    else
      let r := c.makeRequest t (get_intraday_data_request s interval outputsize)
      match r.outcome with
      | .ok data =>
        (match data with
         | .obj kvs =>
           let tsKey := (kvs.map Prod.fst).find?
             (fun k => pyStrContains k "Time Series")
           (match tsKey with
            | some k =>
              if k = "" then (.ok (.obj []), r.attempts)
              else
                (match kvs.lookup k with
                 | some v =>
                   if v.truthy then (.ok data, r.attempts)
                   else (.ok (.obj []), r.attempts)
                 | Option.none => (.ok (.obj []), r.attempts))
            | Option.none => (.ok (.obj []), r.attempts))
         | _ => (.error (.attributeError "keys"), r.attempts))
      | .error e => (.error e, r.attempts)
  | _ => (.error (.invalidArgsError "Symbol must be a non-empty string"), 0)

/-- The parameters `search_stocks` sends (keywords are stripped but not
upper-cased). -/
def search_stocks_request (keywords : String) : Params :=
  [("function", "SYMBOL_SEARCH"), ("keywords", pyStrip keywords)]

/-- Models `search_stocks`, lines 278-312.  The success log line evaluates
`len(matches)`, so a result without a length raises before return. -/
def Client.search_stocks (c : Client) (t : Transport) (keywords : PyVal) :
    OpResult :=
  match keywords with
  | .str s =>
    if s = "" then
      (.error (.invalidArgsError "Keywords must be a non-empty string"), 0)
    else
      let r := c.makeRequest t (search_stocks_request s)
      match r.outcome with
      | .ok data =>
        (match pyDictGet data "bestMatches" (.arr []) with
         | .ok ms =>
           (match pyLen ms with
            | .ok _ => (.ok ms, r.attempts)
            | .error e => (.error e, r.attempts))
         | .error e => (.error e, r.attempts))
      | .error e => (.error e, r.attempts)
  | _ => (.error (.invalidArgsError "Keywords must be a non-empty string"), 0)

/-- The parameters `get_company_overview` sends. -/
def get_company_overview_request (symbol : String) : Params :=
  [("function", "OVERVIEW"), ("symbol", normalizeSymbol symbol)]

/-- Models `get_company_overview`, lines 314-351: `if not data or len(data) <= 1`
yields the empty dict, otherwise the full envelope is returned. -/
def Client.get_company_overview (c : Client) (t : Transport)
    (symbol : PyVal) : OpResult :=
  match symbol with
  | .str s =>
    if s = "" then
      (.error (.invalidArgsError "Symbol must be a non-empty string"), 0)
    else
      let r := c.makeRequest t (get_company_overview_request s)
      match r.outcome with
      | .ok data =>
        if ¬data.truthy then (.ok (.obj []), r.attempts)
        else
          (match pyLen data with
           | .ok l =>
             if l ≤ 1 then (.ok (.obj []), r.attempts)
             else (.ok data, r.attempts)
           | .error e => (.error e, r.attempts))
      | .error e => (.error e, r.attempts)
  | _ => (.error (.invalidArgsError "Symbol must be a non-empty string"), 0)

/-! ### Lemmas about the retry loop -/

theorem makeRequestLoop_zero (t : Nat → AttemptResult) (i : Nat) :
    makeRequestLoop t 0 i =
      ⟨.error (.apiError "Request failed after all retries"), i, true⟩ :=
  rfl

theorem makeRequestLoop_body (t : Nat → AttemptResult) (r i : Nat)
    (d : JSON) (ht : t i = .body d) :
    makeRequestLoop t (r + 1) i = ⟨classifyBody d, i + 1, false⟩ := by
  simp [makeRequestLoop, ht]

theorem makeRequestLoop_connError (t : Nat → AttemptResult) (r i : Nat)
    (m : String) (ht : t i = .connError m) :
    makeRequestLoop t (r + 1) i =
      ⟨.error (.connectionError
        ("Failed to connect to Alpha Vantage API: " ++ m)), i + 1, false⟩ := by
  simp [makeRequestLoop, ht]

theorem makeRequestLoop_httpError (t : Nat → AttemptResult) (r i : Nat)
    (m : String) (ht : t i = .httpError m) :
    makeRequestLoop t (r + 1) i =
      ⟨.error (.apiError ("Request failed: " ++ m)), i + 1, false⟩ := by
  simp [makeRequestLoop, ht]

theorem makeRequestLoop_badJson (t : Nat → AttemptResult) (r i : Nat)
    (m : String) (ht : t i = .badJson m) :
    makeRequestLoop t (r + 1) i =
      ⟨.error (.apiError ("Request failed: " ++ m)), i + 1, false⟩ := by
  simp [makeRequestLoop, ht]

theorem makeRequestLoop_timeout_last (t : Nat → AttemptResult) (i : Nat)
    (ht : t i = .timeout) :
    makeRequestLoop t 1 i =
      ⟨.error (.connectionError "Request timeout after all retries"),
        i + 1, false⟩ := by
  simp [makeRequestLoop, ht]

theorem makeRequestLoop_timeout_step (t : Nat → AttemptResult) (r i : Nat)
    (ht : t i = .timeout) (hr : r ≠ 0) :
    makeRequestLoop t (r + 1) i = makeRequestLoop t r (i + 1) := by
  simp [makeRequestLoop, ht, hr]

/-- If every attempt times out, the loop runs to the last allowed
attempt and raises the timeout `ConnectionError`, having made an
attempt for every remaining iteration. -/
theorem makeRequestLoop_all_timeout (t : Nat → AttemptResult)
    (ht : ∀ j, t j = .timeout) :
    ∀ r i, 1 ≤ r →
      makeRequestLoop t r i =
        ⟨.error (.connectionError "Request timeout after all retries"),
          i + r, false⟩ := by
  intro r
  induction r with
  | zero => intro i h; omega
  | succ r ih =>
    intro i _
    by_cases hr : r = 0
    · subst hr
      rw [makeRequestLoop_timeout_last t i (ht i)]
    · rw [makeRequestLoop_timeout_step t r i (ht i) hr]
      rw [ih (i + 1) (by omega)]
      congr 1
      omega

/-- If the attempts before index `k` all time out and attempt `k`
reports a non-timeout connection error, the loop stops at attempt `k`
with a `ConnectionError`, having made `k + 1` attempts in total. -/
theorem makeRequestLoop_timeouts_then_connError (t : Nat → AttemptResult)
    (k : Nat) (m : String) (htk : ∀ j, j < k → t j = .timeout)
    (hc : t k = .connError m) :
    ∀ r i, i ≤ k → k < i + r →
      makeRequestLoop t r i =
        ⟨.error (.connectionError
          ("Failed to connect to Alpha Vantage API: " ++ m)),
          k + 1, false⟩ := by
  intro r
  induction r with
  | zero => intro i h1 h2; omega
  | succ r ih =>
    intro i h1 h2
    by_cases hik : i = k
    · subst hik
      rw [makeRequestLoop_connError t r i m hc]
    · have hlt : i < k := by omega
      have hr : r ≠ 0 := by omega
      rw [makeRequestLoop_timeout_step t r i (htk i hlt) hr]
      exact ih (i + 1) (by omega) (by omega)

/-- As long as iterations remain, the loop performs at least one more
attempt and never reaches the post-loop fallback. -/
theorem makeRequestLoop_no_fallthrough (t : Nat → AttemptResult) :
    ∀ r i, 1 ≤ r →
      (makeRequestLoop t r i).fellThrough = false ∧
        i < (makeRequestLoop t r i).attempts := by
  intro r
  induction r with
  | zero => intro i h; omega
  | succ r ih =>
    intro i _
    cases hti : t i with
    | timeout =>
      by_cases hr : r = 0
      · subst hr
        rw [makeRequestLoop_timeout_last t i hti]
        exact ⟨rfl, Nat.lt_succ_self i⟩
      · rw [makeRequestLoop_timeout_step t r i hti hr]
        have h2 := ih (i + 1) (by omega)
        exact ⟨h2.1, by have := h2.2; omega⟩
    | connError m =>
      rw [makeRequestLoop_connError t r i m hti]
      exact ⟨rfl, Nat.lt_succ_self i⟩
    | httpError m =>
      rw [makeRequestLoop_httpError t r i m hti]
      exact ⟨rfl, Nat.lt_succ_self i⟩
    | badJson m =>
      rw [makeRequestLoop_badJson t r i m hti]
      exact ⟨rfl, Nat.lt_succ_self i⟩
    | body data =>
      rw [makeRequestLoop_body t r i data hti]
      exact ⟨rfl, Nat.lt_succ_self i⟩

/-- If attempt `0` delivers a parsed body, `_make_request` returns the
classification of that body after exactly one attempt. -/
theorem makeRequest_first_body (c : Client) (t : Transport) (p : Params)
    (d : JSON) (hmr : 1 ≤ c.max_retries)
    (ht : t (p ++ [("apikey", c.api_key)]) 0 = .body d) :
    c.makeRequest t p = ⟨classifyBody d, 1, false⟩ := by
  unfold Client.makeRequest
  obtain ⟨r, hr⟩ : ∃ r, c.max_retries.toNat = r + 1 :=
    ⟨c.max_retries.toNat - 1, by omega⟩
  rw [hr]
  exact makeRequestLoop_body _ r 0 d ht

/-! ### Classification of parsed object bodies -/

/-- Models `key in data` for a parsed JSON object body. -/
def hasField (kvs : List (String × JSON)) (k : String) : Bool :=
  kvs.any (fun kv => kv.1 = k)

theorem lookup_of_hasField (kvs : List (String × JSON)) (k : String)
    (h : hasField kvs k = true) : ∃ v, kvs.lookup k = some v := by
  induction kvs with
  | nil => simp [hasField] at h
  | cons hd tl ih =>
    by_cases hk : hd.1 = k
    · exact ⟨hd.2, by simp [List.lookup, hk]⟩
    · simp [hasField, List.any_cons, hk] at h
      obtain ⟨v, hv⟩ := ih (by simpa [hasField] using h)
      refine ⟨v, ?_⟩
      have hne : (k == hd.1) = false := by
        simp only [beq_eq_false_iff_ne, ne_eq]
        exact fun hkk => hk hkk.symm
      simp [List.lookup, hv, hne]

theorem classifyBody_obj_errorMessage (kvs : List (String × JSON))
    (h : hasField kvs "Error Message" = true) :
    ∃ m, classifyBody (.obj kvs) = .error (.apiError m) := by
  obtain ⟨v, hv⟩ := lookup_of_hasField kvs "Error Message" h
  refine ⟨"Alpha Vantage API Error: " ++ v.pyStr, ?_⟩
  simp only [classifyBody, pyIn, pySubscript]
  rw [show kvs.any (fun kv => kv.1 = "Error Message") = true from h, hv]

theorem classifyBody_obj_note (kvs : List (String × JSON))
    (h1 : hasField kvs "Error Message" = false)
    (h2 : hasField kvs "Note" = true) :
    ∃ m, classifyBody (.obj kvs) = .error (.rateLimitError m) := by
  obtain ⟨v, hv⟩ := lookup_of_hasField kvs "Note" h2
  refine ⟨"Alpha Vantage Rate Limit: " ++ v.pyStr, ?_⟩
  simp only [classifyBody, pyIn, pySubscript]
  rw [show kvs.any (fun kv => kv.1 = "Error Message") = false from h1,
    show kvs.any (fun kv => kv.1 = "Note") = true from h2, hv]

theorem classifyBody_obj_clean (kvs : List (String × JSON))
    (h1 : hasField kvs "Error Message" = false)
    (h2 : hasField kvs "Note" = false) :
    classifyBody (.obj kvs) = .ok (.obj kvs) := by
  simp only [classifyBody, pyIn]
  rw [show kvs.any (fun kv => kv.1 = "Error Message") = false from h1,
    show kvs.any (fun kv => kv.1 = "Note") = false from h2]

/-! ### Claim theorems -/

/-- C1: In the request executor, retry applies only to timeouts: if the
transport reports a timeout on every attempt, the call raises
`ConnectionError` after exactly `max_retries` attempts; if the
transport reports a non-timeout connection error on attempt `k` (after
timeouts only), the call raises `ConnectionError` immediately after
`k + 1` attempts — in particular exactly one attempt when it occurs on
the first. -/
theorem C1_retry_applies_only_to_timeouts (c : Client) (t : Transport)
    (p : Params) (hmr : 1 ≤ c.max_retries) :
    ((∀ j, t (p ++ [("apikey", c.api_key)]) j = .timeout) →
      c.makeRequest t p =
        ⟨.error (.connectionError "Request timeout after all retries"),
          c.max_retries.toNat, false⟩) ∧
    (∀ k m, k < c.max_retries.toNat →
      (∀ j, j < k → t (p ++ [("apikey", c.api_key)]) j = .timeout) →
      t (p ++ [("apikey", c.api_key)]) k = .connError m →
      c.makeRequest t p =
        ⟨.error (.connectionError
          ("Failed to connect to Alpha Vantage API: " ++ m)),
          k + 1, false⟩) := by
  have hdef : c.makeRequest t p =
      makeRequestLoop (t (p ++ [("apikey", c.api_key)]))
        c.max_retries.toNat 0 := rfl
  constructor
  · intro hta
    rw [hdef,
      makeRequestLoop_all_timeout _ hta c.max_retries.toNat 0 (by omega)]
    simp
  · intro k m hk htk hc
    rw [hdef]
    exact makeRequestLoop_timeouts_then_connError _ k m htk hc
      c.max_retries.toNat 0 (by omega) (by omega)

theorem C1_retry_applies_only_to_timeouts_witness :
    (Client.mk "key" "https://www.alphavantage.co/query" 30 3).makeRequest
        (fun _ _ => .timeout) [("function", "GLOBAL_QUOTE")] =
      ⟨.error (.connectionError "Request timeout after all retries"),
        3, false⟩ ∧
    (Client.mk "key" "https://www.alphavantage.co/query" 30 3).makeRequest
        (fun _ _ => .connError "refused") [("function", "GLOBAL_QUOTE")] =
      ⟨.error (.connectionError
        "Failed to connect to Alpha Vantage API: refused"), 1, false⟩ := by
  constructor
  · exact (C1_retry_applies_only_to_timeouts _ _ _ (by decide)).1
      (fun _ => rfl)
  · exact (C1_retry_applies_only_to_timeouts _ _ _ (by decide)).2 0 "refused"
      (by decide) (fun j hj => absurd hj (Nat.not_lt_zero j)) rfl

/-- C2: for a parsed object body delivered on the first attempt: an
`Error Message` field raises `APIError` regardless of other fields; a
`Note` field with no `Error Message` field raises `RateLimitError`;
with neither, the parsed body is returned unchanged. -/
theorem C2_object_body_classification (c : Client) (t : Transport)
    (p : Params) (kvs : List (String × JSON)) (hmr : 1 ≤ c.max_retries)
    (ht : t (p ++ [("apikey", c.api_key)]) 0 = .body (.obj kvs)) :
    (hasField kvs "Error Message" = true →
      ∃ m, (c.makeRequest t p).outcome = .error (.apiError m)) ∧
    (hasField kvs "Error Message" = false → hasField kvs "Note" = true →
      ∃ m, (c.makeRequest t p).outcome = .error (.rateLimitError m)) ∧
    (hasField kvs "Error Message" = false → hasField kvs "Note" = false →
      (c.makeRequest t p).outcome = .ok (.obj kvs)) := by
  rw [makeRequest_first_body c t p _ hmr ht]
  refine ⟨?_, ?_, ?_⟩
  · intro h
    obtain ⟨m, hm⟩ := classifyBody_obj_errorMessage kvs h
    exact ⟨m, hm⟩
  · intro h1 h2
    obtain ⟨m, hm⟩ := classifyBody_obj_note kvs h1 h2
    exact ⟨m, hm⟩
  · intro h1 h2
    exact classifyBody_obj_clean kvs h1 h2

theorem C2_object_body_classification_witness :
    (∃ m, ((Client.mk "key" "u" 30 3).makeRequest
      (fun _ _ => .body (.obj
        [("Error Message", .str "Invalid API call"),
         ("Note", .str "throttled"), ("Global Quote", .obj [])]))
      []).outcome = .error (.apiError m)) ∧
    (∃ m, ((Client.mk "key" "u" 30 3).makeRequest
      (fun _ _ => .body (.obj [("Note", .str "throttled")]))
      []).outcome = .error (.rateLimitError m)) ∧
    ((Client.mk "key" "u" 30 3).makeRequest
      (fun _ _ => .body (.obj [("Global Quote", .obj [])]))
      []).outcome = .ok (.obj [("Global Quote", .obj [])]) := by
  refine ⟨?_, ?_, ?_⟩
  · exact (C2_object_body_classification _ _ [] _ (by decide) rfl).1 (by decide)
  · exact (C2_object_body_classification _ _ [] _ (by decide) rfl).2.1
      (by decide) (by decide)
  · exact (C2_object_body_classification _ _ [] _ (by decide) rfl).2.2
      (by decide) (by decide)

/-- If attempt `0` reports a JSON decode failure, `_make_request`
raises `APIError` after exactly one attempt (the decode error is a
`RequestException` and is caught by the generic handler). -/
theorem makeRequest_first_badJson (c : Client) (t : Transport) (p : Params)
    (m : String) (hmr : 1 ≤ c.max_retries)
    (ht : t (p ++ [("apikey", c.api_key)]) 0 = .badJson m) :
    c.makeRequest t p =
      ⟨.error (.apiError ("Request failed: " ++ m)), 1, false⟩ := by
  unfold Client.makeRequest
  obtain ⟨r, hr⟩ : ∃ r, c.max_retries.toNat = r + 1 :=
    ⟨c.max_retries.toNat - 1, by omega⟩
  rw [hr]
  exact makeRequestLoop_badJson _ r 0 m ht

/-- C3 counterexample: the `ConnectionError` class is declared as a
subclass of `APIError` (line 36), so the error raised on timeout
exhaustion — a `ConnectionError` — is an instance of `APIError`,
contradicting "no error raised as ConnectionFailure is an APIError". -/
theorem C3_counterexample :
    ((Client.mk "key" "u" 30 1).makeRequest (fun _ _ => .timeout) []).outcome =
      .error (.connectionError "Request timeout after all retries") ∧
    (PyExc.connectionError "Request timeout after all retries").isInstanceOf
      ExcClass.apiError = true ∧
    ExcClass.subclassOf ExcClass.connectionError ExcClass.apiError = true := by
  exact ⟨rfl, by decide, by decide⟩

/-- C3 amended: the taxonomy has one level of subtyping under
`APIError`, but with two subtypes: `RateLimitError` and
`ConnectionError`.  Nothing subclasses those two, and every error
raised as a `ConnectionError` is an instance of `APIError`. -/
theorem C3_error_taxonomy (e : PyExc) :
    ExcClass.subclassOf ExcClass.rateLimitError ExcClass.apiError = true ∧
    ExcClass.subclassOf ExcClass.connectionError ExcClass.apiError = true ∧
    (∀ x : ExcClass, ExcClass.base x = some ExcClass.apiError ↔
      (x = ExcClass.rateLimitError ∨ x = ExcClass.connectionError)) ∧
    (∀ x : ExcClass, ¬ExcClass.base x = some ExcClass.rateLimitError) ∧
    (∀ x : ExcClass, ¬ExcClass.base x = some ExcClass.connectionError) ∧
    (e.cls = ExcClass.connectionError →
      e.isInstanceOf ExcClass.apiError = true) := by
  refine ⟨by decide, by decide, ?_, ?_, ?_, ?_⟩
  · intro x
    cases x <;> simp [ExcClass.base]
  · intro x
    cases x <;> simp [ExcClass.base]
  · intro x
    cases x <;> simp [ExcClass.base]
  · intro he
    rw [PyExc.isInstanceOf, he]
    decide

theorem C3_error_taxonomy_witness :
    (PyExc.connectionError "Request timeout after all retries").isInstanceOf
      ExcClass.apiError = true :=
  (C3_error_taxonomy
    (PyExc.connectionError "Request timeout after all retries")).2.2.2.2.2 rfl

/-- C4 counterexample: a response body that parses to the JSON array
`[]` is not treated as a malformed-response `APIError`; the executor
returns it unchanged as the successful result. -/
theorem C4_counterexample :
    ((Client.mk "key" "u" 30 3).makeRequest
      (fun _ _ => .body (.arr [])) []).outcome = .ok (.arr []) := rfl

/-- C4 amended: a body that fails to parse as JSON raises `APIError`,
but a body parsing to a non-object value is not rejected: an array
whose elements are not the provider's marker strings is returned
unchanged, and a numeric body raises an untyped `TypeError` from the
`in` check instead of an `APIError`. -/
theorem C4_malformed_body (c : Client) (t : Transport) (p : Params)
    (hmr : 1 ≤ c.max_retries) :
    (∀ m, t (p ++ [("apikey", c.api_key)]) 0 = .badJson m →
      (c.makeRequest t p).outcome =
        .error (.apiError ("Request failed: " ++ m))) ∧
    (∀ xs, t (p ++ [("apikey", c.api_key)]) 0 = .body (.arr xs) →
      (∀ x ∈ xs, x.eqStr "Error Message" = false) →
      (∀ x ∈ xs, x.eqStr "Note" = false) →
      (c.makeRequest t p).outcome = .ok (.arr xs)) ∧
    (∀ n, t (p ++ [("apikey", c.api_key)]) 0 = .body (.num n) →
      (c.makeRequest t p).outcome =
        .error (.typeError "argument of type is not iterable")) := by
  refine ⟨?_, ?_, ?_⟩
  · intro m ht
    rw [makeRequest_first_badJson c t p m hmr ht]
  · intro xs ht hEM hNote
    rw [makeRequest_first_body c t p _ hmr ht]
    show classifyBody (.arr xs) = .ok (.arr xs)
    have hEM' : xs.any (fun x => x.eqStr "Error Message") = false := by
      rw [List.any_eq_false]
      intro x hx
      simp [hEM x hx]
    have hNote' : xs.any (fun x => x.eqStr "Note") = false := by
      rw [List.any_eq_false]
      intro x hx
      simp [hNote x hx]
    simp only [classifyBody, pyIn]
    rw [hEM', hNote']
  · intro n ht
    rw [makeRequest_first_body c t p _ hmr ht]
    rfl

theorem C4_malformed_body_witness :
    ((Client.mk "key" "u" 30 3).makeRequest
      (fun _ _ => .badJson "Expecting value") []).outcome =
      .error (.apiError "Request failed: Expecting value") ∧
    ((Client.mk "key" "u" 30 3).makeRequest
      (fun _ _ => .body (.arr [.num 1, .str "x"])) []).outcome =
      .ok (.arr [.num 1, .str "x"]) ∧
    ((Client.mk "key" "u" 30 3).makeRequest
      (fun _ _ => .body (.num 7)) []).outcome =
      .error (.typeError "argument of type is not iterable") := by
  refine ⟨?_, ?_, ?_⟩
  · exact (C4_malformed_body _ _ [] (by decide)).1 "Expecting value" rfl
  · exact (C4_malformed_body _ _ [] (by decide)).2.1 [.num 1, .str "x"] rfl
      (by intro x hx; fin_cases hx <;> rfl)
      (by intro x hx; fin_cases hx <;> rfl)
  · exact (C4_malformed_body _ _ [] (by decide)).2.2 7 rfl

/-- C6 counterexample: the constructor accepts `max_retries = -1`
(negative integers are truthy, so no default is substituted), and the
resulting executor performs zero HTTP attempts and reaches the
post-loop fallback `APIError`. -/
theorem C6_counterexample :
    StockMarketClient.init (some "key") Option.none Option.none
        (some (-1)) =
      .ok (Client.mk "key" "https://www.alphavantage.co/query" 30 (-1)) ∧
    (Client.mk "key" "https://www.alphavantage.co/query" 30 (-1)).makeRequest
        (fun _ _ => .timeout) [] =
      ⟨.error (.apiError "Request failed after all retries"), 0, true⟩ := by
  exact ⟨rfl, rfl⟩

/-- C6 amended: for every client constructed with a `max_retries`
argument that is not a negative integer (omitted, zero, or positive),
the retry loop performs at least one HTTP attempt and the post-loop
fallback is never reached. -/
theorem C6_at_least_one_attempt (ak bu : Option String)
    (tout mr : Option Int) (cl : Client)
    (hmr : ∀ x, mr = some x → 0 ≤ x)
    (hinit : StockMarketClient.init ak bu tout mr = .ok cl)
    (t : Transport) (p : Params) :
    (cl.makeRequest t p).fellThrough = false ∧
    1 ≤ (cl.makeRequest t p).attempts := by
  have hretries : cl.max_retries = pyOrInt mr 3 := by
    simp only [StockMarketClient.init] at hinit
    split at hinit
    · exact absurd hinit (by simp)
    · have := Except.ok.inj hinit
      rw [← this]
  have hpos : 1 ≤ cl.max_retries := by
    rw [hretries]
    cases mr with
    | none => simp [pyOrInt]
    | some x =>
      have hx := hmr x rfl
      simp only [pyOrInt]
      split <;> omega
  have h := makeRequestLoop_no_fallthrough
    (t (p ++ [("apikey", cl.api_key)])) cl.max_retries.toNat 0 (by omega)
  exact ⟨h.1, h.2⟩

theorem C6_at_least_one_attempt_witness :
    ((Client.mk "key" "https://www.alphavantage.co/query" 30 3).makeRequest
      (fun _ _ => .timeout) []).fellThrough = false ∧
    1 ≤ ((Client.mk "key" "https://www.alphavantage.co/query" 30 3).makeRequest
      (fun _ _ => .timeout) []).attempts :=
  C6_at_least_one_attempt (some "key") Option.none Option.none Option.none
    (Client.mk "key" "https://www.alphavantage.co/query" 30 3)
    (fun x hx => absurd hx (by simp)) rfl (fun _ _ => .timeout) []

/-- C10: constructing the client with `timeout = 0`, `max_retries = 0`
or `base_url = ""` behaves exactly as constructing it with that
argument omitted; the defaults are silently substituted. -/
theorem C10_falsy_args_get_defaults (ak : Option String) :
    StockMarketClient.init ak (some "") Option.none Option.none =
      StockMarketClient.init ak Option.none Option.none Option.none ∧
    StockMarketClient.init ak Option.none (some 0) Option.none =
      StockMarketClient.init ak Option.none Option.none Option.none ∧
    StockMarketClient.init ak Option.none Option.none (some 0) =
      StockMarketClient.init ak Option.none Option.none Option.none ∧
    StockMarketClient.init (some "key") (some "") (some 0) (some 0) =
      .ok (Client.mk "key" "https://www.alphavantage.co/query" 30 3) := by
  refine ⟨?_, ?_, ?_, rfl⟩ <;>
    simp [StockMarketClient.init, pyOrStr, pyOrInt]

/-- C5: every operation with a required string argument rejects an
empty or non-string value with `InvalidArgsError` before any network
call — zero HTTP attempts are performed. -/
theorem C5_validation_before_network (c : Client) (t : Transport)
    (v : PyVal) (hv : v = .str "" ∨ ∀ s, v ≠ .str s) :
    c.get_quote t v =
      (.error (.invalidArgsError "Symbol must be a non-empty string"), 0) ∧
    (∀ os, c.get_daily_data t v os =
      (.error (.invalidArgsError "Symbol must be a non-empty string"), 0)) ∧
    (∀ iv os, c.get_intraday_data t v iv os =
      (.error (.invalidArgsError "Symbol must be a non-empty string"), 0)) ∧
    c.search_stocks t v =
      (.error (.invalidArgsError "Keywords must be a non-empty string"), 0) ∧
    c.get_company_overview t v =
      (.error (.invalidArgsError "Symbol must be a non-empty string"), 0) := by
  rcases hv with hv | hv
  · subst hv
    exact ⟨rfl, fun _ => rfl, fun _ _ => rfl, rfl, rfl⟩
  · cases v with
    | str s => exact absurd rfl (hv s)
    | int n => exact ⟨rfl, fun _ => rfl, fun _ _ => rfl, rfl, rfl⟩
    | bool b => exact ⟨rfl, fun _ => rfl, fun _ _ => rfl, rfl, rfl⟩
    | none => exact ⟨rfl, fun _ => rfl, fun _ _ => rfl, rfl, rfl⟩

theorem C5_validation_before_network_witness :
    (Client.mk "key" "u" 30 3).get_quote (fun _ _ => .timeout) (.int 0) =
      (.error (.invalidArgsError "Symbol must be a non-empty string"), 0) ∧
    (Client.mk "key" "u" 30 3).get_daily_data (fun _ _ => .timeout) (.int 0)
      "compact" =
      (.error (.invalidArgsError "Symbol must be a non-empty string"), 0) ∧
    (Client.mk "key" "u" 30 3).get_intraday_data (fun _ _ => .timeout)
      (.int 0) "5min" "compact" =
      (.error (.invalidArgsError "Symbol must be a non-empty string"), 0) ∧
    (Client.mk "key" "u" 30 3).search_stocks (fun _ _ => .timeout) (.int 0) =
      (.error (.invalidArgsError "Keywords must be a non-empty string"), 0) ∧
    (Client.mk "key" "u" 30 3).get_company_overview (fun _ _ => .timeout)
      (.int 0) =
      (.error (.invalidArgsError "Symbol must be a non-empty string"), 0) := by
  have h := C5_validation_before_network (Client.mk "key" "u" 30 3)
    (fun _ _ => .timeout) (.int 0) (Or.inr (fun s hs => nomatch hs))
  exact ⟨h.1, h.2.1 "compact", h.2.2.1 "5min" "compact", h.2.2.2.1,
    h.2.2.2.2⟩

/-- C7: `get_intraday_data` validates symbol, then interval, then
outputsize, first failure winning; any invalid interval or outputsize
yields an `InvalidArgsError` with zero HTTP attempts, for valid and
invalid symbols alike. -/
theorem C7_intraday_validation_order (c : Client) (t : Transport)
    (v : PyVal) (iv os : String) :
    ((v = .str "" ∨ ∀ s, v ≠ .str s) →
      c.get_intraday_data t v iv os =
        (.error (.invalidArgsError "Symbol must be a non-empty string"), 0)) ∧
    (∀ s, v = .str s → s ≠ "" → iv ∉ valid_intervals →
      c.get_intraday_data t v iv os =
        (.error (.invalidArgsError
          "Interval must be one of: ['1min', '5min', '15min', '30min', '60min']"),
          0)) ∧
    (∀ s, v = .str s → s ≠ "" → iv ∈ valid_intervals →
      os ∉ ["compact", "full"] →
      c.get_intraday_data t v iv os =
        (.error (.invalidArgsError "Output size must be 'compact' or 'full'"),
          0)) ∧
    ((iv ∉ valid_intervals ∨ os ∉ ["compact", "full"]) →
      ∃ m, c.get_intraday_data t v iv os =
        (.error (.invalidArgsError m), 0)) := by
  have sym_err : (v = .str "" ∨ ∀ s, v ≠ .str s) →
      c.get_intraday_data t v iv os =
        (.error (.invalidArgsError "Symbol must be a non-empty string"), 0) := by
    intro hv
    rcases hv with hv | hv
    · subst hv; rfl
    · cases v with
      | str s => exact absurd rfl (hv s)
      | int n => rfl
      | bool b => rfl
      | none => rfl
  have int_err : ∀ s, v = .str s → s ≠ "" → iv ∉ valid_intervals →
      c.get_intraday_data t v iv os =
        (.error (.invalidArgsError
          "Interval must be one of: ['1min', '5min', '15min', '30min', '60min']"),
          0) := by
    intro s hvs hs hiv
    subst hvs
    simp [Client.get_intraday_data, hs, hiv]
  have os_err : ∀ s, v = .str s → s ≠ "" → iv ∈ valid_intervals →
      os ∉ ["compact", "full"] →
      c.get_intraday_data t v iv os =
        (.error (.invalidArgsError "Output size must be 'compact' or 'full'"),
          0) := by
    intro s hvs hs hiv hos
    subst hvs
    simp [Client.get_intraday_data, hs, hiv, hos]
  refine ⟨sym_err, int_err, os_err, ?_⟩
  intro h
  cases v with
  | str s =>
    by_cases hse : s = ""
    · subst hse
      exact ⟨_, sym_err (Or.inl rfl)⟩
    · by_cases hiv : iv ∈ valid_intervals
      · rcases h with h | h
        · exact absurd hiv h
        · exact ⟨_, os_err s rfl hse hiv h⟩
      · exact ⟨_, int_err s rfl hse hiv⟩
  | int n => exact ⟨_, sym_err (Or.inr fun s hs => nomatch hs)⟩
  | bool b => exact ⟨_, sym_err (Or.inr fun s hs => nomatch hs)⟩
  | none => exact ⟨_, sym_err (Or.inr fun s hs => nomatch hs)⟩

theorem C7_intraday_validation_order_witness :
    (Client.mk "key" "u" 30 3).get_intraday_data (fun _ _ => .timeout)
      (.str "AAPL") "2min" "compact" =
      (.error (.invalidArgsError
        "Interval must be one of: ['1min', '5min', '15min', '30min', '60min']"),
        0) ∧
    (Client.mk "key" "u" 30 3).get_intraday_data (fun _ _ => .timeout)
      (.str "AAPL") "5min" "huge" =
      (.error (.invalidArgsError "Output size must be 'compact' or 'full'"),
        0) ∧
    (Client.mk "key" "u" 30 3).get_intraday_data (fun _ _ => .timeout)
      (.str "") "2min" "huge" =
      (.error (.invalidArgsError "Symbol must be a non-empty string"), 0) := by
  refine ⟨?_, ?_, ?_⟩
  · exact (C7_intraday_validation_order _ _ (.str "AAPL") "2min"
      "compact").2.1 "AAPL" rfl (by decide) (by decide)
  · exact (C7_intraday_validation_order _ _ (.str "AAPL") "5min"
      "huge").2.2.1 "AAPL" rfl (by decide) (by decide) (by decide)
  · exact (C7_intraday_validation_order _ _ (.str "") "2min"
      "huge").1 (Or.inl rfl)

/-- C8: every symbol-taking operation places `symbol.upper().strip()`
into its request parameters; in particular `"  aapl "` becomes
`"AAPL"`. -/
theorem C8_symbol_normalization (s : String) (hs : s ≠ "") :
    (get_quote_request s).lookup "symbol" = some (pyStrip (pyUpper s)) ∧
    (∀ os, (get_daily_data_request s os).lookup "symbol" =
      some (pyStrip (pyUpper s))) ∧
    (∀ iv os, (get_intraday_data_request s iv os).lookup "symbol" =
      some (pyStrip (pyUpper s))) ∧
    (get_company_overview_request s).lookup "symbol" =
      some (pyStrip (pyUpper s)) ∧
    (get_quote_request "  aapl ").lookup "symbol" = some "AAPL" := by
  refine ⟨?_, fun os => ?_, fun iv os => ?_, ?_, by decide⟩ <;>
    simp [get_quote_request, get_daily_data_request,
      get_intraday_data_request, get_company_overview_request,
      normalizeSymbol, List.lookup]

theorem C8_symbol_normalization_witness :
    (get_quote_request "  aapl ").lookup "symbol" =
      some (pyStrip (pyUpper "  aapl ")) ∧
    pyStrip (pyUpper "  aapl ") = "AAPL" :=
  ⟨(C8_symbol_normalization "  aapl " (by decide)).1, by decide⟩

/-- C9: on a successful overview response whose envelope is an object
with at most one field, `get_company_overview` returns the empty
mapping; with two or more fields it returns the envelope in full. -/
theorem C9_overview_small_envelope (c : Client) (t : Transport)
    (s : String) (kvs : List (String × JSON)) (hs : s ≠ "")
    (hmr : 1 ≤ c.max_retries)
    (ht : ∀ q i, t q i = .body (.obj kvs))
    (hEM : hasField kvs "Error Message" = false)
    (hNote : hasField kvs "Note" = false) :
    (kvs.length ≤ 1 →
      c.get_company_overview t (.str s) = (.ok (.obj []), 1)) ∧
    (2 ≤ kvs.length →
      c.get_company_overview t (.str s) = (.ok (.obj kvs), 1)) := by
  have hreq : c.makeRequest t (get_company_overview_request s) =
      ⟨.ok (.obj kvs), 1, false⟩ := by
    rw [makeRequest_first_body c t _ _ hmr (ht _ 0),
      classifyBody_obj_clean kvs hEM hNote]
  constructor
  · intro hlen
    cases kvs with
    | nil =>
      simp [Client.get_company_overview, hs, hreq, JSON.truthy]
    | cons hd tl =>
      have htl : tl = [] := by
        cases tl with
        | nil => rfl
        | cons a b => simp at hlen
      subst htl
      simp [Client.get_company_overview, hs, hreq, JSON.truthy, pyLen]
  · intro hlen
    cases kvs with
    | nil => simp at hlen
    | cons hd tl =>
      have hgt : ¬(hd :: tl).length ≤ 1 := by omega
      have htl : ¬tl = [] := by
        intro h
        subst h
        simp at hlen
      simp [Client.get_company_overview, hs, hreq, JSON.truthy, pyLen, hgt,
        htl]

theorem C9_overview_small_envelope_witness :
    (Client.mk "key" "u" 30 3).get_company_overview
      (fun _ _ => .body (.obj [("Symbol", .str "XYZ")])) (.str "XYZ") =
      (.ok (.obj []), 1) ∧
    (Client.mk "key" "u" 30 3).get_company_overview
      (fun _ _ => .body (.obj
        [("Symbol", .str "MSFT"), ("Name", .str "Microsoft Corporation")]))
      (.str "MSFT") =
      (.ok (.obj
        [("Symbol", .str "MSFT"), ("Name", .str "Microsoft Corporation")]),
        1) := by
  constructor
  · exact (C9_overview_small_envelope _ _ "XYZ" [("Symbol", .str "XYZ")]
      (by decide) (by decide) (fun _ _ => rfl) (by decide) (by decide)).1
      (by decide)
  · exact (C9_overview_small_envelope _ _ "MSFT"
      [("Symbol", .str "MSFT"), ("Name", .str "Microsoft Corporation")]
      (by decide) (by decide) (fun _ _ => rfl) (by decide) (by decide)).2
      (by decide)
